import Mathlib

/-!
Verification of the projection engine of the `car_value` repository.

The definitions below are a shallow embedding of the Python code in
`app/streamlit/utils/prediction_logic.py`, `app/streamlit/utils/data_processing.py`
and the `predict_clicked` handler of `app/streamlit/pages/predictor.py`.

Modelling conventions:
* Python floats are modelled as exact rationals (`ℚ`); Python's `round`
  builtin and pandas/numpy `.round(2)` both round half to even, modelled by
  `roundHalfEven` / `roundTo2` below.
* Python `int(x)` on a non-negative quotient truncates, i.e. floors; for
  natural inputs `int(cur_km / cur_age)` is `Nat` division.
* The external prediction gateway (`cached_predict` wrapping the model's
  `predict`) is treated per the spec as a pure, deterministic, row-wise
  function, modelled as `Payload → ℚ` (or `List Payload → List ℚ` where the
  call shape matters).
* Loop bodies and comprehensions of the Python source are translated to
  named helper functions mapped over lists.
-/

/-- Round a rational half to even (banker's rounding), the semantics of
Python's `round` builtin and of numpy/pandas rounding. -/
def roundHalfEven (q : ℚ) : ℤ :=
  let f := ⌊q⌋
  let r := q - (f : ℚ)
  if r < 1/2 then f
  else if 1/2 < r then f + 1
  else if f % 2 = 0 then f else f + 1

/-- Round to 2 decimal places half to even: pandas' `.round(2)`. -/
def roundTo2 (q : ℚ) : ℚ := (roundHalfEven (q * 100) : ℚ) / 100

theorem roundHalfEven_intCast (n : ℤ) : roundHalfEven (n : ℚ) = n := by
  simp [roundHalfEven]

theorem roundTo2_zero : roundTo2 0 = 0 := by
  simp [roundTo2, roundHalfEven]

/-- The per-year mileage of `calculate_years_and_kms`
(`app/streamlit/utils/prediction_logic.py`, the loop over `years`):
linear interpolation to the `(cur_age, cur_km)` anchor at or below the
current age, and either the `expected_annual_km` ramp or the average-km
line beyond it. -/
def kmAtAge (cur_age cur_km avg_per_year : ℕ) (expected_annual_km : Option ℤ)
    (y : ℕ) : ℤ :=
  if y ≤ cur_age then
    if cur_age > 0 then roundHalfEven ((y * cur_km : ℚ) / (cur_age : ℚ))
    else roundHalfEven ((y * avg_per_year : ℕ) : ℚ)
  else
    match expected_annual_km with
    | some e => (cur_km : ℤ) + ((y : ℤ) - (cur_age : ℤ)) * e
    | none => roundHalfEven ((y * avg_per_year : ℕ) : ℚ)

/-- `calculate_years_and_kms` from `app/streamlit/utils/prediction_logic.py`.
Returns `(years, explicit_kms, avg_per_year)`.
`avg_per_year = int(cur_km / cur_age)` truncates (Nat division). -/
def calculate_years_and_kms (cur_age cur_km : ℕ) (expected_annual_km : Option ℤ) :
    List ℕ × List ℤ × ℕ :=
  let avg_per_year : ℕ := if cur_age > 0 then cur_km / cur_age else cur_km
  let years : List ℕ := if cur_age < 10 then List.range 11 else List.range' cur_age 4
  (years, years.map (kmAtAge cur_age cur_km avg_per_year expected_annual_km), avg_per_year)

/-- One model-input record, as built by `build_prediction_payloads`
(`app/streamlit/utils/data_processing.py`). -/
structure Payload where
  km : ℤ
  fuel_type : String
  age : ℤ
  brand : String
  segment : String
  body_type : String
deriving Repr, DecidableEq, Inhabited

/-- The body of the `for i, y in enumerate(years)` loop of
`build_prediction_payloads`: mileage for position `i`. -/
def payloadKm (years : List ℕ) (avg_km_per_year : ℤ) (explicit_kms : Option (List ℤ))
    (i : ℕ) : ℤ :=
  match explicit_kms with
  | some ks => if i < ks.length then ks.getD i 0
               else roundHalfEven ((((years.getD i 0 : ℕ) : ℤ) * avg_km_per_year : ℤ) : ℚ)
  | none => roundHalfEven ((((years.getD i 0 : ℕ) : ℤ) * avg_km_per_year : ℤ) : ℚ)

/-- `build_prediction_payloads` from `app/streamlit/utils/data_processing.py`.
On a length mismatch between `years` and `explicit_kms` the source does not
raise (the `if ... != ...` block is a `pass`): position `i` uses
`explicit_kms[i]` when `i < len(explicit_kms)` and otherwise falls back to
`int(round(y * avg_km_per_year))`. -/
def build_prediction_payloads (years : List ℕ) (fuel_type brand segment body_type : String)
    (avg_km_per_year : ℤ) (explicit_kms : Option (List ℤ)) : List Payload :=
  (List.range years.length).map (fun i =>
    { km := payloadKm years avg_km_per_year explicit_kms i
      fuel_type := fuel_type, age := ((years.getD i 0 : ℕ) : ℤ), brand := brand,
      segment := segment, body_type := body_type })

/-- One row of the prediction dataframe handed to
`calculate_depreciation_metrics`: columns `year`, `km`, `prediction`. -/
structure PredRow where
  year : ℕ
  km : ℤ
  prediction : ℚ
deriving Repr, DecidableEq, Inhabited

/-- One row of the output of `calculate_depreciation_metrics`: the input
columns plus `depreciation`, `depreciation_pct`, `accum_depreciation`. -/
structure DepRow where
  year : ℕ
  km : ℤ
  prediction : ℚ
  depreciation : ℚ
  depreciation_pct : ℚ
  accum_depreciation : ℚ
deriving Repr, DecidableEq, Inhabited

/-- Row `i` of `calculate_depreciation_metrics`
(`app/streamlit/utils/data_processing.py`): pandas' columnwise recipe made
pointwise.  `prev` is `prediction.shift(1)` (missing at row 0, filled with 0
after the subtraction); `depreciation_pct` divides by `prev` with `0`
replaced by `NA` and the result filled with 0; `accum_depreciation` is
relative to the first row's value, 0 when that value is 0; all four numeric
columns are rounded to 2 decimals at the end. -/
def depRowAt (rows : List PredRow) (i : ℕ) : DepRow :=
  let r := rows.getD i default
  let dep : ℚ :=
    match i with
    | 0 => 0
    | Nat.succ j => (rows.getD j default).prediction - r.prediction
  let dep_pct : ℚ :=
    match i with
    | 0 => 0
    | Nat.succ j =>
        if (rows.getD j default).prediction = 0 then 0
        else dep / (rows.getD j default).prediction * 100
  let base := (rows.getD 0 default).prediction
  let accum : ℚ := if base = 0 then 0 else (base - r.prediction) / base * 100
  { year := r.year, km := r.km, prediction := roundTo2 r.prediction,
    depreciation := roundTo2 dep, depreciation_pct := roundTo2 dep_pct,
    accum_depreciation := roundTo2 accum }

/-- `calculate_depreciation_metrics` from
`app/streamlit/utils/data_processing.py`.  Works on a copy of the input
frame (`df.copy()`), so the embedding is a pure function of the row list;
`pd.to_numeric` is the identity on the already-numeric predictions. -/
def calculate_depreciation_metrics (rows : List PredRow) : List DepRow :=
  (List.range rows.length).map (depRowAt rows)

/-- The four categorical selections plus the numeric inputs read by the
`predict_clicked` handler of `app/streamlit/pages/predictor.py`. -/
structure Filters where
  fuel_type : String
  brand : String
  segment : String
  body_type : String
  age : ℕ
  km : ℕ
  expected_annual_km : Option ℤ
deriving Repr, DecidableEq, Inhabited

/-- `validate_selections` from `app/streamlit/utils/prediction_logic.py`:
Python truthiness on the four categorical strings (empty means missing). -/
def validate_selections (f : Filters) : Option String :=
  if f.fuel_type = "" ∨ f.brand = "" ∨ f.segment = "" ∨ f.body_type = "" then
    some "Please select Fuel type, Brand, Segment and Body type in the sidebar."
  else none

/-- `validate_payloads` from `app/streamlit/utils/prediction_logic.py`.
The source interpolates the deduplicated list of missing field names into
the message; the exact interpolated text (Python `set` ordering) is
presentation detail and the message is modelled as its fixed prefix. -/
def validate_payloads (payloads : List Payload) : Option String :=
  if payloads = [] then some "Prediction failed: No payloads generated."
  else if payloads.any (fun p =>
      p.fuel_type = "" ∨ p.brand = "" ∨ p.segment = "" ∨ p.body_type = "") then
    some "Prediction could not be made: missing fields"
  else none

/-- `validate_predictions` from `app/streamlit/utils/prediction_logic.py`. -/
def validate_predictions (preds : List ℚ) (df_base : List PredRow) : Option String :=
  if preds.length = 0 then some "Prediction failed: model returned no results."
  else if df_base = [] then some "Prediction failed: input data is empty."
  else none

/-- The prediction pipeline of the `predict_clicked` handler in
`app/streamlit/pages/predictor.py`, up to the depreciation-metrics table.
The second component counts the calls made to the prediction gateway
(`cached_predict`); all further gateway calls of the handler (charts, brand
comparison) happen strictly after this pipeline has succeeded. -/
def predict_clicked_pipeline (f : Filters) (gateway : List Payload → List ℚ) :
    Except String (List DepRow) × ℕ :=
  match validate_selections f with
  | some e => (Except.error e, 0)
  | none =>
    let t := calculate_years_and_kms f.age f.km f.expected_annual_km
    let payloads := build_prediction_payloads t.1 f.fuel_type f.brand f.segment
      f.body_type (t.2.2 : ℤ) (some t.2.1)
    match validate_payloads payloads with
    | some e => (Except.error e, 0)
    | none =>
      let preds := gateway payloads
      let df_base := (List.range t.1.length).map (fun i =>
        { year := t.1.getD i 0, km := (payloads.getD i default).km,
          prediction := preds.getD i 0 : PredRow })
      match validate_predictions preds df_base with
      | some e => (Except.error e, 1)
      | none => (Except.ok (calculate_depreciation_metrics df_base), 1)

/-- The categorical filters used by `calculate_brand_comparison_data`
(`brand` is supplied separately per candidate). -/
structure CompFilters where
  fuel_type : String
  segment : String
  body_type : String
deriving Repr, DecidableEq, Inhabited

/-- The age-0 probe payload `payload_year_0` of
`calculate_brand_comparison_data`: km 0, age 0, the candidate brand, other
filters fixed. -/
def probePayload (f : CompFilters) (brand : String) : Payload :=
  { km := 0, fuel_type := f.fuel_type, age := 0, brand := brand,
    segment := f.segment, body_type := f.body_type }

/-- pandas `.mean()` on a list of rationals (0 for the empty list, matching
the source's `if ... and not df.empty else 0` guards). -/
def qMean (l : List ℚ) : ℚ := if l.length = 0 then 0 else l.sum / l.length

/-- The year/km/prediction frame `brand_df` built inside the per-brand loop
of `calculate_brand_comparison_data`: years 0..10, mileage from
`build_prediction_payloads` with the average-km rule, prices from the
gateway (modelled row-wise). -/
def trajRows (f : CompFilters) (avg : ℤ) (predictOne : Payload → ℚ)
    (brand : String) : List PredRow :=
  let payloads := build_prediction_payloads (List.range 11) f.fuel_type brand
    f.segment f.body_type avg none
  (List.range 11).map (fun i =>
    { year := i, km := (payloads.getD i default).km,
      prediction := predictOne (payloads.getD i default) })

/-- One row of the brand-comparison table.  The source formats these values
into display strings (`modify_display_name`, thousands separators); that
presentation-only formatting is omitted and the row keeps the raw brand key
and numeric values.  `initialVal` is the source's `_initial_val_numeric`
sort key (the rounded age-0 prediction of the metrics frame). -/
structure BrandRow where
  brand : String
  initialVal : ℚ
  avgDepPct : ℚ
  avgDepEur : ℚ
  value5 : Option ℚ
  value10 : Option ℚ
deriving Repr, DecidableEq, Inhabited

/-- The per-brand body of the loop in `calculate_brand_comparison_data`:
run the 0..10 trajectory through `calculate_depreciation_metrics` and
extract the tabulated values. -/
def brandRow (f : CompFilters) (avg : ℤ) (predictOne : Payload → ℚ)
    (brand : String) : BrandRow :=
  let out := calculate_depreciation_metrics (trajRows f avg predictOne brand)
  let kpi := out.filter (fun r => r.year ≠ 0)
  { brand := brand
    initialVal := ((out.filter (fun r => r.year = 0)).getD 0 default).prediction
    avgDepPct := qMean (kpi.map (fun r => r.depreciation_pct))
    avgDepEur := qMean (kpi.map (fun r => r.depreciation))
    value5 := if out.any (fun r => r.year = 5) then
        some (((out.filter (fun r => r.year = 5)).getD 0 default).prediction) else none
    value10 := if out.any (fun r => r.year = 10) then
        some (((out.filter (fun r => r.year = 10)).getD 0 default).prediction) else none }

/-- Ordering of `(brand, distance)` pairs by distance: the key
`lambda x: x[1]` of the `sorted` call in `calculate_brand_comparison_data`. -/
def byDiff (x y : String × ℚ) : Prop := x.2 ≤ y.2

instance : DecidableRel byDiff := fun x y => inferInstanceAs (Decidable (x.2 ≤ y.2))

instance : IsTotal (String × ℚ) byDiff := ⟨fun a b => le_total a.2 b.2⟩

instance : IsTrans (String × ℚ) byDiff := ⟨fun _ _ _ h1 h2 => le_trans h1 h2⟩

/-- Ordering of brand rows by `_initial_val_numeric` descending: the
`comparison_data.sort(key=..., reverse=True)` of the source. -/
def descInit (a b : BrandRow) : Prop := b.initialVal ≤ a.initialVal

instance : DecidableRel descInit := fun a b =>
  inferInstanceAs (Decidable (b.initialVal ≤ a.initialVal))

instance : IsTotal BrandRow descInit := ⟨fun a b => le_total b.initialVal a.initialVal⟩

instance : IsTrans BrandRow descInit := ⟨fun _ _ _ h1 h2 => le_trans h2 h1⟩

/-- The value of the `brand_diffs` dict comprehension of
`calculate_brand_comparison_data`: the absolute distance between a
candidate brand's age-0 predicted price (`brand_initial_values[brand]`)
and the selected brand's. -/
def brandDist (f : CompFilters) (predictOne : Payload → ℚ) (selected b : String) : ℚ :=
  |predictOne (probePayload f b) - predictOne (probePayload f selected)|

/-- `calculate_brand_comparison_data` from
`app/streamlit/utils/data_processing.py`.

The Python dicts `brand_initial_values` / `brand_diffs` are keyed by the
(upstream-deduplicated) brand list, so they are modelled as lists over
`all_brands`; Python's stable `sorted`/`list.sort` are modelled by
`List.insertionSort`, which is the stable sort.  The source's loop appends
every non-selected row to `comparison_data`, captures the selected brand's
row (its brand, processed first, never recurs among the shortlist names
because those are filtered to differ from it), sorts the rest descending by
the numeric key and prepends the selected row; that is the cons below. -/
def calculate_brand_comparison_data (all_brands : List String) (selected : String)
    (f : CompFilters) (avg : ℤ) (predictOne : Payload → ℚ) : List BrandRow :=
  let brand_diffs : List (String × ℚ) :=
    (all_brands.filter (fun b => b ≠ selected)).map
      (fun b => (b, brandDist f predictOne selected b))
  let closest_brand_names : List String :=
    ((brand_diffs.insertionSort byDiff).take 6).map Prod.fst
  brandRow f avg predictOne selected ::
    (closest_brand_names.map (brandRow f avg predictOne)).insertionSort descInit

example : (calculate_years_and_kms 2 20000 (some 12000)).2.1 =
    [0, 10000, 20000, 32000, 44000, 56000, 68000, 80000, 92000, 104000, 116000] := by
  have h : List.range 11 = [0,1,2,3,4,5,6,7,8,9,10] := rfl
  simp only [calculate_years_and_kms, h]
  norm_num [kmAtAge, roundHalfEven]

example : (calculate_years_and_kms 2 20000 none).2.1 =
    [0, 10000, 20000, 30000, 40000, 50000, 60000, 70000, 80000, 90000, 100000] := by
  have h : List.range 11 = [0,1,2,3,4,5,6,7,8,9,10] := rfl
  simp only [calculate_years_and_kms, h]
  norm_num [kmAtAge, roundHalfEven]

example : (calculate_years_and_kms 3 5 none).2.2 = 1 := rfl

example : (calculate_years_and_kms 10 50000 none).1 = [10, 11, 12, 13] := rfl

/-! ## Helper lemmas -/

theorem getD_map_of_lt {α β : Type} (l : List α) (f : α → β) (i : ℕ)
    (h : i < l.length) (d : β) (d' : α) :
    (l.map f).getD i d = f (l.getD i d') := by
  rw [List.getD_eq_getElem?_getD, List.getElem?_map, List.getElem?_eq_getElem h,
    List.getD_eq_getElem?_getD, List.getElem?_eq_getElem h]
  rfl

theorem getD_range_of_lt (n i : ℕ) (h : i < n) (d : ℕ) :
    (List.range n).getD i d = i := by
  rw [List.getD_eq_getElem?_getD, List.getElem?_range h]
  rfl

theorem metrics_getD (rows : List PredRow) (i : ℕ) (h : i < rows.length) :
    (calculate_depreciation_metrics rows).getD i default = depRowAt rows i := by
  unfold calculate_depreciation_metrics
  rw [getD_map_of_lt _ _ _ (by simpa using h) _ 0, getD_range_of_lt _ _ h]

theorem length_metrics (rows : List PredRow) :
    (calculate_depreciation_metrics rows).length = rows.length := by
  simp [calculate_depreciation_metrics]

/-! ## Claims -/

/-- C5: the age axis of `calculate_years_and_kms` is exactly `0..10`
(11 points) when `current_age < 10`, and exactly
`current_age..current_age+3` (4 points) when `current_age ≥ 10`; in
particular `current_age = 9` yields the window `0..10` and
`current_age = 10` yields the window `10..13`. -/
theorem C5_age_axis (cur_age cur_km : ℕ) (e : Option ℤ) :
    (calculate_years_and_kms cur_age cur_km e).1 =
      if cur_age < 10 then [0, 1, 2, 3, 4, 5, 6, 7, 8, 9, 10]
      else [cur_age, cur_age + 1, cur_age + 2, cur_age + 3] := by
  have h11 : List.range 11 = [0, 1, 2, 3, 4, 5, 6, 7, 8, 9, 10] := rfl
  have h4 : List.range' cur_age 4 = [cur_age, cur_age + 1, cur_age + 2, cur_age + 3] := by
    simp [List.range'_succ]
  by_cases h : cur_age < 10 <;> simp [calculate_years_and_kms, h, h11, h4]

/-- C9: the years and mileage lists returned by `calculate_years_and_kms`
always have equal length (11 when `current_age < 10`, else 4), and the
years are consecutive strictly increasing integers. -/
theorem C9_producer_shape (cur_age cur_km : ℕ) (e : Option ℤ) :
    ((calculate_years_and_kms cur_age cur_km e).1).length =
      ((calculate_years_and_kms cur_age cur_km e).2.1).length ∧
    ((calculate_years_and_kms cur_age cur_km e).1).length =
      (if cur_age < 10 then 11 else 4) ∧
    List.Chain' (fun x y => y = x + 1) (calculate_years_and_kms cur_age cur_km e).1 := by
  refine ⟨by simp [calculate_years_and_kms], ?_, ?_⟩ <;>
    rw [C5_age_axis cur_age cur_km e] <;>
    by_cases h : cur_age < 10 <;>
    simp [h, List.chain'_cons]

/-- C3 counterexample: for `current_age = 3`, `current_km = 5` the source
computes `avg_km_per_year = int(5 / 3) = 1` (truncation), while
`round(5 / 3) = 2`, so the claimed `avg_km_per_year = round(current_km /
current_age)` fails (the gap is 1, far beyond float tolerance). -/
theorem C3_counterexample :
    (calculate_years_and_kms 3 5 none).2.2 = 1 ∧ roundHalfEven ((5 : ℚ) / 3) = 2 := by
  refine ⟨rfl, ?_⟩
  norm_num [roundHalfEven]

/-- C3 amended: `avg_km_per_year` equals the truncating (floor) division
`⌊current_km / current_age⌋` when `current_age > 0`, and `current_km` when
`current_age = 0`; the division by zero is guarded by that case split. -/
theorem C3_amended (cur_age cur_km : ℕ) (e : Option ℤ) :
    (calculate_years_and_kms cur_age cur_km e).2.2 =
      if 0 < cur_age then cur_km / cur_age else cur_km := by
  simp [calculate_years_and_kms]

/-- C2 counterexample: with `years = [0, 1]`, `avg_km_per_year = 3` and the
single explicit mileage `[5]` (a length mismatch), `build_prediction_payloads`
does not fail: it returns two payloads, taking the explicit mileage for
position 0 and falling back to the average-kilometre rule
(`round(1 * 3) = 3`) for position 1. -/
theorem C2_counterexample :
    (build_prediction_payloads [0, 1] "gasoline" "audi" "c" "suv" 3 (some [5])).map
      Payload.km = [5, 3] := by
  have h2 : List.range ([0, 1] : List ℕ).length = [0, 1] := rfl
  simp only [build_prediction_payloads, h2, List.map_cons, List.map_nil]
  norm_num [payloadKm, roundHalfEven]

/-- C2 amended: on a length mismatch `build_prediction_payloads` does not
fail with a `ShapeMismatch` error; it returns one payload per year, using
`explicit_kms[i]` for every position `i < len(explicit_kms)` and falling
back to the average-kilometre rule `round(y * avg_km_per_year)` for the
remaining positions (surplus mileage entries are ignored). -/
theorem C2_amended (years : List ℕ) (fuel brand seg bt : String) (avg : ℤ)
    (ks : List ℤ) (_hne : ks.length ≠ years.length) (i : ℕ) (hi : i < years.length) :
    (build_prediction_payloads years fuel brand seg bt avg (some ks)).length =
      years.length ∧
    ((build_prediction_payloads years fuel brand seg bt avg (some ks)).getD i
        default).km =
      (if i < ks.length then ks.getD i 0
       else roundHalfEven ((((years.getD i 0 : ℕ) : ℤ) * avg : ℤ) : ℚ)) := by
  constructor
  · simp [build_prediction_payloads]
  · unfold build_prediction_payloads
    rw [getD_map_of_lt _ _ _ (by simpa using hi) _ 0, getD_range_of_lt _ _ hi]
    rfl

/-- C2 amended, witness at the counterexample input. -/
theorem C2_amended_witness :
    (build_prediction_payloads [0, 1] "gasoline" "audi" "c" "suv" 3 (some [5])).length = 2 ∧
    ((build_prediction_payloads [0, 1] "gasoline" "audi" "c" "suv" 3 (some [5])).getD 1
        default).km =
      (if 1 < ([(5 : ℤ)]).length then ([(5 : ℤ)]).getD 1 0
       else roundHalfEven (((([0, 1].getD 1 0 : ℕ) : ℤ) * 3 : ℤ) : ℚ)) :=
  C2_amended [0, 1] "gasoline" "audi" "c" "suv" 3 [5] (by decide) 1 (by decide)

theorem getD_eq_getElem_of_lt {α : Type} (l : List α) (i : ℕ) (h : i < l.length)
    (d : α) : l.getD i d = l[i] := by
  rw [List.getD_eq_getElem?_getD, List.getElem?_eq_getElem h]
  rfl

/-- C1: for every price trajectory, row `i` of
`calculate_depreciation_metrics` carries `depreciation[0] = 0`,
`depreciation[i] = value[i-1] - value[i]`, `depreciation_pct[i] =
depreciation[i] / value[i-1] * 100` (0 when `value[i-1] = 0`),
`accum_depreciation_pct[i] = (value[0] - value[i]) / value[0] * 100`
(0 when `value[0] = 0`), each rounded to 2 decimal places; and the
trajectory `[20000, 18000, 15000]` at ages `[0, 1, 2]` yields depreciation
`[0, 2000, 3000]`, percentages `[0, 10.0, 16.67]` and accumulated
percentages `[0, 10.0, 25.0]`. -/
theorem C1_depreciation_metrics (rows : List PredRow) (i : ℕ) (h : i < rows.length) :
    (((calculate_depreciation_metrics rows).getD i default).depreciation =
      roundTo2 (if i = 0 then 0
        else (rows.getD (i - 1) default).prediction - (rows.getD i default).prediction) ∧
    ((calculate_depreciation_metrics rows).getD i default).depreciation_pct =
      roundTo2 (if i = 0 ∨ (rows.getD (i - 1) default).prediction = 0 then 0
        else ((rows.getD (i - 1) default).prediction - (rows.getD i default).prediction) /
          (rows.getD (i - 1) default).prediction * 100) ∧
    ((calculate_depreciation_metrics rows).getD i default).accum_depreciation =
      roundTo2 (if (rows.getD 0 default).prediction = 0 then 0
        else ((rows.getD 0 default).prediction - (rows.getD i default).prediction) /
          (rows.getD 0 default).prediction * 100)) ∧
    ((calculate_depreciation_metrics
        [⟨0, 0, 20000⟩, ⟨1, 10000, 18000⟩, ⟨2, 20000, 15000⟩]).map DepRow.depreciation =
        [0, 2000, 3000] ∧
      (calculate_depreciation_metrics
        [⟨0, 0, 20000⟩, ⟨1, 10000, 18000⟩, ⟨2, 20000, 15000⟩]).map
          DepRow.depreciation_pct = [0, 10, 16.67] ∧
      (calculate_depreciation_metrics
        [⟨0, 0, 20000⟩, ⟨1, 10000, 18000⟩, ⟨2, 20000, 15000⟩]).map
          DepRow.accum_depreciation = [0, 10, 25]) := by
  constructor
  · rw [metrics_getD rows i h]
    refine ⟨?_, ?_, ?_⟩ <;> cases i <;> simp [depRowAt]
  · have hr : List.range ([⟨0, 0, (20000:ℚ)⟩, ⟨1, 10000, 18000⟩,
        ⟨2, 20000, 15000⟩] : List PredRow).length = [0, 1, 2] := rfl
    simp only [calculate_depreciation_metrics, hr, List.map_cons, List.map_nil]
    norm_num [depRowAt, roundTo2, roundHalfEven]

/-- C1 witness at the scenario input, row 2. -/
theorem C1_depreciation_metrics_witness :
    ((calculate_depreciation_metrics
      [⟨0, 0, 20000⟩, ⟨1, 10000, 18000⟩, ⟨2, 20000, 15000⟩]).getD 2
        default).depreciation =
      roundTo2 (if (2:ℕ) = 0 then 0
        else (([⟨0, 0, 20000⟩, ⟨1, 10000, 18000⟩, ⟨2, 20000, 15000⟩] : List PredRow).getD
            (2 - 1) default).prediction -
          (([⟨0, 0, 20000⟩, ⟨1, 10000, 18000⟩, ⟨2, 20000, 15000⟩] : List PredRow).getD 2
            default).prediction) :=
  ((C1_depreciation_metrics
    [⟨0, 0, 20000⟩, ⟨1, 10000, 18000⟩, ⟨2, 20000, 15000⟩] 2 (by decide)).1).1

/-- C6: for every non-empty price trajectory, the first output row of
`calculate_depreciation_metrics` has depreciation, depreciation percentage
and accumulated depreciation percentage all exactly 0. -/
theorem C6_first_row_zero (rows : List PredRow) (h : rows ≠ []) :
    ((calculate_depreciation_metrics rows).getD 0 default).depreciation = 0 ∧
    ((calculate_depreciation_metrics rows).getD 0 default).depreciation_pct = 0 ∧
    ((calculate_depreciation_metrics rows).getD 0 default).accum_depreciation = 0 := by
  have h0 : 0 < rows.length := List.length_pos.mpr h
  rw [metrics_getD rows 0 h0]
  refine ⟨?_, ?_, ?_⟩ <;> simp [depRowAt, roundTo2_zero]

/-- C6 witness on a one-row trajectory. -/
theorem C6_first_row_zero_witness :
    ((calculate_depreciation_metrics [⟨0, 0, 100⟩]).getD 0 default).depreciation = 0 ∧
    ((calculate_depreciation_metrics [⟨0, 0, 100⟩]).getD 0 default).depreciation_pct = 0 ∧
    ((calculate_depreciation_metrics [⟨0, 0, 100⟩]).getD 0
        default).accum_depreciation = 0 :=
  C6_first_row_zero [⟨0, 0, 100⟩] (by decide)

/-- C10: `calculate_depreciation_metrics` is a pure function of its input
(the source copies the frame before writing), and in its output the `year`
and `km` columns are identical to the input's; the `prediction` column is
the input's, rounded to 2 decimals (numeric coercion is the identity on
numeric input); the only other columns are the three added depreciation
columns (the fields of `DepRow`). -/
theorem C10_frame_effect (rows : List PredRow) :
    (calculate_depreciation_metrics rows).map DepRow.year = rows.map PredRow.year ∧
    (calculate_depreciation_metrics rows).map DepRow.km = rows.map PredRow.km ∧
    (calculate_depreciation_metrics rows).map DepRow.prediction =
      rows.map (fun r => roundTo2 r.prediction) := by
  refine ⟨?_, ?_, ?_⟩ <;>
    apply List.ext_getElem (by simp [calculate_depreciation_metrics]) <;>
    intro n h1 h2 <;>
    simp only [calculate_depreciation_metrics, List.getElem_map, List.getElem_range,
      depRowAt] <;>
    rw [getD_eq_getElem_of_lt rows n (by simpa [calculate_depreciation_metrics] using h1)]

/-- C4: for a trajectory from `calculate_years_and_kms` with
`current_age > 0`, every age `y ≤ current_age` gets
`km(y) = round(y * current_km / current_age)`; every age `y > current_age`
gets `current_km + (y - current_age) * expected_annual_km` when the
override is given and `round(y * avg_km_per_year)` otherwise; in
particular `current_age = 2`, `current_km = 20000`,
`expected_annual_km = 12000` put km 56000 at age 5 and km 10000 at age 1. -/
theorem C4_mileage_rule (cur_age cur_km : ℕ) (e : Option ℤ) (h : 0 < cur_age)
    (i : ℕ) (hi : i < ((calculate_years_and_kms cur_age cur_km e).1).length) :
    (((calculate_years_and_kms cur_age cur_km e).2.1).getD i 0 =
      (if ((calculate_years_and_kms cur_age cur_km e).1).getD i 0 ≤ cur_age then
        roundHalfEven
          (((((calculate_years_and_kms cur_age cur_km e).1).getD i 0) * cur_km : ℚ) /
            (cur_age : ℚ))
      else
        match e with
        | some ekm => (cur_km : ℤ) +
            (((((calculate_years_and_kms cur_age cur_km e).1).getD i 0 : ℕ) : ℤ) -
              (cur_age : ℤ)) * ekm
        | none => roundHalfEven
            (((((calculate_years_and_kms cur_age cur_km e).1).getD i 0) *
              ((calculate_years_and_kms cur_age cur_km e).2.2) : ℕ) : ℚ))) ∧
    ((calculate_years_and_kms 2 20000 (some 12000)).2.1.getD 5 0 = 56000 ∧
      (calculate_years_and_kms 2 20000 (some 12000)).2.1.getD 1 0 = 10000) := by
  constructor
  · have hmap : ((calculate_years_and_kms cur_age cur_km e).2.1).getD i 0 =
        kmAtAge cur_age cur_km
          (if cur_age > 0 then cur_km / cur_age else cur_km) e
          (((calculate_years_and_kms cur_age cur_km e).1).getD i 0) := by
      simp only [calculate_years_and_kms] at hi ⊢
      exact getD_map_of_lt _ _ _ hi _ 0
    rw [hmap]
    simp only [calculate_years_and_kms, kmAtAge, h, if_pos]
    cases e <;> rfl
  · have h11 : List.range 11 = [0, 1, 2, 3, 4, 5, 6, 7, 8, 9, 10] := rfl
    constructor <;>
      · simp only [calculate_years_and_kms, h11]
        norm_num [kmAtAge, roundHalfEven]

/-- C4 witness: the scenario input `current_age = 2`, `current_km = 20000`,
`expected_annual_km = 12000`, at position 5 of the age axis. -/
theorem C4_mileage_rule_witness :
    ((((calculate_years_and_kms 2 20000 (some 12000)).2.1).getD 5 0 =
      (if ((calculate_years_and_kms 2 20000 (some 12000)).1).getD 5 0 ≤ 2 then
        roundHalfEven
          (((((calculate_years_and_kms 2 20000 (some 12000)).1).getD 5 0) * 20000 : ℚ) /
            (2 : ℚ))
      else
        match (some (12000 : ℤ)) with
        | some ekm => ((20000 : ℕ) : ℤ) +
            (((((calculate_years_and_kms 2 20000 (some 12000)).1).getD 5 0 : ℕ) : ℤ) -
              ((2 : ℕ) : ℤ)) * ekm
        | none => roundHalfEven
            (((((calculate_years_and_kms 2 20000 (some 12000)).1).getD 5 0) *
              ((calculate_years_and_kms 2 20000 (some 12000)).2.2) : ℕ) : ℚ))) ∧
    ((calculate_years_and_kms 2 20000 (some 12000)).2.1.getD 5 0 = 56000 ∧
      (calculate_years_and_kms 2 20000 (some 12000)).2.1.getD 1 0 = 10000)) :=
  C4_mileage_rule 2 20000 (some 12000) (by decide) 5 (by decide)

/-- C8: `validate_selections` errors exactly when one of the four
categorical filters is the empty string, and on such an error the
`predict_clicked` pipeline reports it with zero calls made to the
prediction gateway. -/
theorem C8_validation_before_gateway (f : Filters) (g : List Payload → List ℚ) :
    ((validate_selections f).isSome ↔
      (f.fuel_type = "" ∨ f.brand = "" ∨ f.segment = "" ∨ f.body_type = "")) ∧
    (∀ e, validate_selections f = some e →
      predict_clicked_pipeline f g = (Except.error e, 0)) := by
  constructor
  · by_cases h : f.fuel_type = "" ∨ f.brand = "" ∨ f.segment = "" ∨ f.body_type = "" <;>
      simp [validate_selections, h]
  · intro e he
    simp [predict_clicked_pipeline, he]

/-- C8 witness: an empty brand selection is reported without invoking the
gateway. -/
theorem C8_validation_before_gateway_witness :
    predict_clicked_pipeline ⟨"petrol", "", "c", "suv", 2, 20000, none⟩
        (fun _ => [1]) =
      (Except.error
        "Please select Fuel type, Brand, Segment and Body type in the sidebar.", 0) :=
  (C8_validation_before_gateway ⟨"petrol", "", "c", "suv", 2, 20000, none⟩
    (fun _ => [1])).2 _ rfl

theorem brandRow_brand (f : CompFilters) (avg : ℤ) (p : Payload → ℚ) (b : String) :
    (brandRow f avg p b).brand = b := rfl

/-- C7: for any brand list containing the selected brand (deduplicated, as
produced upstream) and a deterministic gateway, the comparison table is the
selected brand's row followed by rows for the (at most) 6 candidate brands
whose age-0 predicted price is nearest in absolute distance to the selected
brand's age-0 price, with those remaining rows sorted by their age-0 price
in descending order. -/
theorem C7_brand_shortlist (all_brands : List String) (selected : String)
    (f : CompFilters) (avg : ℤ) (predictOne : Payload → ℚ)
    (_hsel : selected ∈ all_brands) (_hnd : all_brands.Nodup) :
    ∃ rest,
      calculate_brand_comparison_data all_brands selected f avg predictOne =
        brandRow f avg predictOne selected :: rest ∧
      rest.length = min 6 ((all_brands.filter (fun b => b ≠ selected)).length) ∧
      (∀ r ∈ rest, ∃ b, b ∈ all_brands ∧ b ≠ selected ∧
        r = brandRow f avg predictOne b) ∧
      (∀ r ∈ rest, ∀ c ∈ all_brands, c ≠ selected →
        (∀ r2 ∈ rest, r2.brand ≠ c) →
        brandDist f predictOne selected r.brand ≤ brandDist f predictOne selected c) ∧
      rest.Pairwise descInit := by
  classical
  refine ⟨((((((all_brands.filter (fun b => b ≠ selected)).map
      (fun b => (b, brandDist f predictOne selected b))).insertionSort byDiff).take
        6).map Prod.fst).map (brandRow f avg predictOne)).insertionSort descInit,
    rfl, ?_, ?_, ?_, ?_⟩
  all_goals
    set dist := brandDist f predictOne selected with hdist
    set g := brandRow f avg predictOne with hg
    set candidates := all_brands.filter (fun b => b ≠ selected) with hcand
    set diffs := candidates.map (fun b => (b, dist b)) with hdiffs
    set sorted := diffs.insertionSort byDiff with hsorted
    set names := (sorted.take 6).map Prod.fst with hnames
  · rw [List.length_insertionSort, List.length_map, List.length_map,
      List.length_take, hsorted, List.length_insertionSort, hdiffs,
      List.length_map]
  · intro r hr
    have hr' : r ∈ names.map g :=
      (List.perm_insertionSort descInit (names.map g)).subset hr
    obtain ⟨b, hb_names, rfl⟩ := List.mem_map.mp hr'
    obtain ⟨p, hp_take, hp1⟩ := List.mem_map.mp hb_names
    have hp_diffs : p ∈ diffs :=
      (List.perm_insertionSort byDiff diffs).subset (List.mem_of_mem_take hp_take)
    obtain ⟨b', hb'_cand, hpeq⟩ := List.mem_map.mp hp_diffs
    have hb'b : b' = b := by rw [← hp1, ← hpeq]
    subst hb'b
    have hmem := List.mem_filter.mp hb'_cand
    exact ⟨b', hmem.1, by simpa using hmem.2, rfl⟩
  · intro r hr c hc hcne hcnot
    have hr' : r ∈ names.map g :=
      (List.perm_insertionSort descInit (names.map g)).subset hr
    obtain ⟨b, hb_names, rfl⟩ := List.mem_map.mp hr'
    obtain ⟨p, hp_take, hp1⟩ := List.mem_map.mp hb_names
    have hp_diffs : p ∈ diffs :=
      (List.perm_insertionSort byDiff diffs).subset (List.mem_of_mem_take hp_take)
    obtain ⟨b', hb'_cand, hpeq⟩ := List.mem_map.mp hp_diffs
    have hb'b : b' = b := by rw [← hp1, ← hpeq]
    subst hb'b
    have hc_cand : c ∈ candidates :=
      List.mem_filter.mpr ⟨hc, by simpa using hcne⟩
    have hq_sorted : (c, dist c) ∈ sorted :=
      (List.perm_insertionSort byDiff diffs).symm.subset
        (List.mem_map_of_mem _ hc_cand)
    have hq_app : (c, dist c) ∈ sorted.take 6 ++ sorted.drop 6 := by
      rw [List.take_append_drop]
      exact hq_sorted
    rcases List.mem_append.mp hq_app with htk | hdr
    · exfalso
      have hcn : c ∈ names := by
        have := List.mem_map_of_mem Prod.fst htk
        simpa [hnames] using this
      have hgc : g c ∈ ((names.map g).insertionSort descInit) :=
        (List.perm_insertionSort descInit (names.map g)).symm.subset
          (List.mem_map_of_mem _ hcn)
      exact hcnot (g c) hgc rfl
    · have hpair : List.Pairwise byDiff (sorted.take 6 ++ sorted.drop 6) := by
        rw [List.take_append_drop]
        exact List.sorted_insertionSort byDiff diffs
      have hle := (List.pairwise_append.mp hpair).2.2 p hp_take _ hdr
      have hp2 : p.2 = dist b' := by rw [← hpeq]
      have hbrand : (g b').brand = b' := rfl
      rw [hbrand]
      calc dist b' = p.2 := hp2.symm
        _ ≤ dist c := hle
  · exact List.sorted_insertionSort descInit (names.map g)

/-- A concrete deterministic gateway for witnesses: prices depend only on
the payload's brand. -/
def demoPredict (p : Payload) : ℚ :=
  if p.brand = "a" then 100 else if p.brand = "b" then 90 else 80

/-- C7 witness: three brands, selected brand in the middle. -/
theorem C7_brand_shortlist_witness :
    ∃ rest,
      calculate_brand_comparison_data ["a", "b", "c"] "b" ⟨"g", "s", "t"⟩ 1000
          demoPredict =
        brandRow ⟨"g", "s", "t"⟩ 1000 demoPredict "b" :: rest ∧
      rest.length = min 6 ((["a", "b", "c"].filter (fun b => b ≠ "b")).length) ∧
      (∀ r ∈ rest, ∃ b, b ∈ ["a", "b", "c"] ∧ b ≠ "b" ∧
        r = brandRow ⟨"g", "s", "t"⟩ 1000 demoPredict b) ∧
      (∀ r ∈ rest, ∀ c ∈ ["a", "b", "c"], c ≠ "b" →
        (∀ r2 ∈ rest, r2.brand ≠ c) →
        brandDist ⟨"g", "s", "t"⟩ demoPredict "b" r.brand ≤
          brandDist ⟨"g", "s", "t"⟩ demoPredict "b" c) ∧
      rest.Pairwise descInit :=
  C7_brand_shortlist ["a", "b", "c"] "b" ⟨"g", "s", "t"⟩ 1000 demoPredict
    (by decide) (by decide)
